import Mathlib

/-!
Verification of the `ydb-dataclass` library (type registry, field binder,
record transformer, statement builder) against its specification.

The Python source is shallowly embedded: the registry of storable types
(`types.py`) becomes an inductive enumeration, the decorator's binding and
conversion logic (`decorator.py`) becomes total functions returning
`Except` where the Python raises, and the statement builders (`queries.py`)
become pure `String` functions.  Python dictionaries appear as ordered
association lists, `None` parameters as `Option`, and Python truthiness on
list/dict parameters is translated by matching on emptiness exactly where
the source tests truthiness.
-/

namespace YdbDataclass

/-- Native ("python") representation types carried by registry entries,
mirroring the first argument of each `YDBType.__init__` call in
`types.py`. -/
inductive PyTy where
  | int
  | str
  | bytes
  | float
  | bool
  deriving DecidableEq, Repr

/-- The closed set of registered base types from `types.py` (the nested
classes of `YDBMeta` reachable as attributes of `YDB`).  `decimal` and
`optional` are shadowed on `YDB` by static methods (plain functions, not
types), so they are not members of the scanned registry; parameterized
decimal values are instead produced by `YDB.decimal` below. -/
inductive BaseType where
  | int64
  | uint64
  | utf8
  | string
  | double
  | bool
  | timestamp
  | json
  | date
  | datetime
  | interval
  deriving DecidableEq, Repr

/-- Store-type name of a base type: the second argument of each
`YDBType.__init__` call in `types.py`. -/
def BaseType.ydbName : BaseType → String
  | .int64 => "Int64"
  | .uint64 => "Uint64"
  | .utf8 => "Utf8"
  | .string => "String"
  | .double => "Double"
  | .bool => "Bool"
  | .timestamp => "Timestamp"
  | .json => "Json"
  | .date => "Date"
  | .datetime => "Datetime"
  | .interval => "Interval"

/-- Native representation type of a base type: the first argument of each
`YDBType.__init__` call in `types.py`. -/
def BaseType.pyTy : BaseType → PyTy
  | .int64 => .int
  | .uint64 => .int
  | .utf8 => .str
  | .string => .bytes
  | .double => .float
  | .bool => .bool
  | .timestamp => .int
  | .json => .str
  | .date => .int
  | .datetime => .int
  | .interval => .int

/-- A resolved store type: a registry base type, a parameterized decimal
(`YDBMeta.decimal(precision, scale)`), or the `YDBMeta.Optional` wrapper.
The wrapper constructor takes an arbitrary already-constructed store type,
exactly as `Optional.__init__` in `types.py` accepts any value exposing
`python_type` / `ydb_type` / `ydb_value` - including another `Optional`. -/
inductive StoreType where
  | base (b : BaseType)
  | decimal (precision scale : Nat)
  | optional (inner : StoreType)
  deriving DecidableEq, Repr

/-- `ydb_type` attribute of a store type: for bases the registered name,
for decimal the formatted `f"Decimal({precision}, {scale})"` of
`YDBMeta.decimal.__init__`, and for the wrapper the
`f"Optional<{self.inner_type.ydb_type}>"` of `Optional.__init__`. -/
def StoreType.ydbTypeName : StoreType → String
  | .base b => b.ydbName
  | .decimal p s => "Decimal(" ++ toString p ++ ", " ++ toString s ++ ")"
  | .optional t => "Optional<" ++ t.ydbTypeName ++ ">"

/-- `python_type` attribute of a store type; `Optional.__init__` copies the
inner type's `python_type` unchanged. -/
def StoreType.pyTy : StoreType → PyTy
  | .base b => b.pyTy
  | .decimal _ _ => .str
  | .optional t => t.pyTy

/-- `YDB.optional` from `types.py`: plain construction of the wrapper, with
no flattening and no rejection of any inner type. -/
def YDB.optional (inner : StoreType) : StoreType := .optional inner

/-- `YDB.decimal` from `types.py` (defaults 22, 9). -/
def YDB.decimal (precision : Nat := 22) (scale : Nat := 9) : StoreType :=
  .decimal precision scale

/-- Native runtime values flowing through the record transformer.  Python
scalars are embedded by kind; values the embedding does not inspect
(floats, raw store objects passed through unconverted) are carried as
opaque tagged atoms. -/
inductive Value where
  | vNone
  | vInt (i : Int)
  | vStr (s : String)
  | vBool (b : Bool)
  | vOther (tag : String)
  deriving DecidableEq, Repr

/-- A record instance: ordered field-name/value assignments as produced by
the generated dataclass constructor. -/
abbrev Record := List (String × Value)

/-- Dictionary lookup on an ordered association list (first match wins),
the embedding of `d[k]` / `k in d` on Python dicts. -/
def lookupStr {β : Type} (n : String) : List (String × β) → Option β
  | [] => none
  | p :: rest => if p.1 = n then some p.2 else lookupStr n rest

/-- `YDBFieldInfo` from `decorator.py`: field name, resolved store type and
the `default` slot whose Python sentinel `...` (Ellipsis, meaning "no
default captured") is embedded as `none`. -/
structure YDBFieldInfo where
  name : String
  ydb_type : StoreType
  default : Option Value
  deriving DecidableEq, Repr

/-! ## Statement builder (`queries.py`) -/

/-- A value appearing in a `where` condition mapping: Python `None`, a
`list`/`tuple` of elements, or any other (scalar) value, matching the
three-way test in `generate_where_clause`. -/
inductive WhereVal where
  | null
  | seq (elems : List Value)
  | scalar (v : Value)
  deriving DecidableEq, Repr

/-- One clause of `generate_where_clause` in `queries.py`: `IS NULL` for
`None`, an `IN` list with one indexed placeholder per element for
`list`/`tuple` values, and `field = $field` otherwise. -/
def whereClauseFor (field : String) (v : WhereVal) : String :=
  match v with
  | .null => field ++ " IS NULL"
  | .seq xs =>
    let placeholders :=
      String.intercalate ", "
        ((List.range xs.length).map (fun i => "$" ++ field ++ "_" ++ toString i))
    field ++ " IN (" ++ placeholders ++ ")"
  | .scalar _ => field ++ " = $" ++ field

/-- `generate_where_clause` from `queries.py`: the loop appends one clause
per condition to an accumulator list, then joins with `" AND "`. -/
def generate_where_clause (conditions : List (String × WhereVal)) : String :=
  let clauses :=
    conditions.foldl (fun acc fv => acc ++ [whereClauseFor fv.1 fv.2]) []
  String.intercalate " AND " clauses

/-- Python `str.replace(old, new)` on character lists: replace every
non-overlapping occurrence left to right.  The fuel argument (always
instantiated with the string length, an upper bound on the number of
steps) keeps the recursion structural so that the kernel can evaluate it.
A step either consumes the matched pattern (non-empty by the guard) or one
character. -/
def pyReplaceAux (pat rep : List Char) : Nat → List Char → List Char
  | _, [] => []
  | 0, s => s
  | fuel + 1, c :: rest =>
    if pat.isEmpty = false ∧ pat.isPrefixOf (c :: rest) = true then
      rep ++ pyReplaceAux pat rep fuel ((c :: rest).drop pat.length)
    else
      c :: pyReplaceAux pat rep fuel rest

/-- Python `s.replace(pat, rep)` on strings (for the non-empty patterns the
source uses). -/
def pyReplace (s pat rep : String) : String :=
  ⟨pyReplaceAux pat.data rep.data s.data.length s.data⟩

/-- `insert_query` from `queries.py`.  Note the `"REPLACE"` branch is a
textual `query.replace("INSERT", "REPLACE")` over the whole statement. -/
def insert_query (table_name : String) (ydb_fields : List YDBFieldInfo)
    (on_conflict : Option String := none) : String :=
  let columns := ydb_fields.map (·.name)
  let placeholders := columns.map (fun col => "$" ++ col)
  let columns_str := String.intercalate ", " columns
  let placeholders_str := String.intercalate ", " placeholders
  let query := "INSERT INTO `" ++ table_name ++ "` (" ++ columns_str ++
    ") VALUES (" ++ placeholders_str ++ ")"
  if on_conflict = some "REPLACE" then
    pyReplace query "INSERT" "REPLACE"
  else if on_conflict = some "UPDATE" then
    "UPSERT INTO `" ++ table_name ++ "` (" ++ columns_str ++
      ") VALUES (" ++ placeholders_str ++ ")"
  else
    query

/-- `upsert_query` from `queries.py`. -/
def upsert_query (table_name : String) (ydb_fields : List YDBFieldInfo) : String :=
  let columns := ydb_fields.map (·.name)
  let placeholders := columns.map (fun col => "$" ++ col)
  let columns_str := String.intercalate ", " columns
  let placeholders_str := String.intercalate ", " placeholders
  "UPSERT INTO `" ++ table_name ++ "` (" ++ columns_str ++
    ") VALUES (" ++ placeholders_str ++ ")"

/-- `select_query` from `queries.py`.  The Python `None` defaults of
`ydb_fields`, `where`, `order_by` and `columns` are indistinguishable from
empty collections under the source's truthiness tests, so they are
embedded as empty lists; `limit`/`offset` are compared with `is not None`
in the source and stay `Option`. -/
def select_query (table_name : String) (ydb_fields : List YDBFieldInfo := [])
    (where_ : List (String × WhereVal) := []) (order_by : List String := [])
    (limit : Option Int := none) (offset : Option Int := none)
    (columns : List String := []) : String :=
  let columns_str :=
    if columns.isEmpty = false then
      String.intercalate ", " columns
    else if ydb_fields.isEmpty = false then
      String.intercalate ", " (ydb_fields.map (·.name))
    else
      "*"
  let query := "SELECT " ++ columns_str ++ " FROM `" ++ table_name ++ "`"
  let query :=
    if where_.isEmpty = false then
      query ++ " WHERE " ++ generate_where_clause where_
    else query
  let query :=
    if order_by.isEmpty = false then
      query ++ " ORDER BY " ++ String.intercalate ", " order_by
    else query
  match limit with
  | none => query
  | some l =>
    let query := query ++ " LIMIT " ++ toString l
    match offset with
    | none => query
    | some o => query ++ " OFFSET " ++ toString o

/-- `update_query` from `queries.py`.  `if update_fields:` is Python
truthiness: both `None` and an empty list fall through to "all fields". -/
def update_query (table_name : String) (ydb_fields : List YDBFieldInfo)
    (where_ : List (String × WhereVal) := [])
    (update_fields : Option (List String) := none) : String :=
  let all_fields := ydb_fields.map (·.name)
  let set_fields :=
    match update_fields with
    | some (u :: us) => (u :: us).filter (fun f => all_fields.contains f)
    | _ => all_fields
  let set_clauses := set_fields.map (fun field => field ++ " = $" ++ field)
  let set_clause := String.intercalate ", " set_clauses
  let query := "UPDATE `" ++ table_name ++ "` SET " ++ set_clause
  if where_.isEmpty = false then
    query ++ " WHERE " ++ generate_where_clause where_
  else query

/-- `delete_query` from `queries.py`: the `WHERE` clause is appended only
when the conditions dict is truthy (non-empty). -/
def delete_query (table_name : String) (where_ : List (String × WhereVal)) : String :=
  let query := "DELETE FROM `" ++ table_name ++ "`"
  if where_.isEmpty = false then
    query ++ " WHERE " ++ generate_where_clause where_
  else query

/-! ## Field binder and record transformer (`decorator.py`) -/

/-- A declared attribute type as it appears on a record shape: a registry
base type (`YDB.<name>`), a `typing.Optional[...]` wrapper (an origin type
with argument pair `(inner, NoneType)`), or any other type, identified
only by a tag.  `typing` flattens `Optional[Optional[X]]` to `Optional[X]`
at annotation-construction time, but the embedding keeps the general form;
the binder itself only ever accepts an optional whose inner component is
identical to a registry base type, exactly as the identity scans in
`_is_ydb_type` / `_extract_ydb_type` do. -/
inductive PyAnn where
  | ydbBase (b : BaseType)
  | optionalOf (inner : PyAnn)
  | otherTy (tag : String)
  deriving DecidableEq, Repr

/-- `_is_ydb_type` from `decorator.py`, at its actual runtime behavior:
the scan `for attr_name in dir(YDB): attr = getattr(YDB, attr_name)`
accepts an attribute only when `isinstance(attr, type) and hasattr(attr,
'python_type')` holds and the declared type is identical to it.  No
attribute ever passes that gate: `dir` on a class lists the class's own
and inherited attributes but not metaclass attributes (CPython
`type.__dir__`), so the registry classes - which live on the metaclass
`YDBMeta` - are never enumerated; `YDB.__dict__` contributes only the
`optional` and `decimal` static methods (plain functions, not types), and
no inherited member is a class with a `python_type` attribute.  Even the
registry classes themselves would fail the `hasattr` gate, because
`python_type` is assigned only in `YDBType.__init__` and is therefore an
instance attribute, absent from the classes.  Both the base-type branch
and the `Optional[...]` branch run the same scan, so the function returns
`False` for every declared type. -/
def is_ydb_type (_t : PyAnn) : Bool := false

/-- `_extract_ydb_type` from `decorator.py`, at its actual runtime
behavior: it runs the same never-matching registry scan as
`_is_ydb_type` (see there), falls through both loops for every input, and
reaches the final `raise TypeError(...)` - the spec's
`UnsupportedTypeError` - unconditionally. -/
def extract_ydb_type (_t : PyAnn) : Except String StoreType :=
  .error "TypeError: not a valid YDB type"

/-- The field-collection loop of `ydb_dataclass.wrap` (`decorator.py`
lines 106-110): walk the shape's declared attributes in order; an
attribute passing `_is_ydb_type` would be resolved with
`_extract_ydb_type` (whose exception, if any, propagates) and recorded as
`YDBFieldInfo(name, ydb_type)` with the `default` argument never supplied
(the `...` sentinel, `none`); all other attributes are skipped.  Since
`_is_ydb_type` is constantly `False`, the loop binds nothing and raises
nothing for any shape. -/
def bindFields : List (String × PyAnn) → Except String (List YDBFieldInfo)
  | [] => .ok []
  | (n, t) :: rest =>
    if is_ydb_type t then
      match extract_ydb_type t with
      | .error e => .error e
      | .ok st =>
        match bindFields rest with
        | .error e => .error e
        | .ok fs => .ok (⟨n, st, none⟩ :: fs)
    else
      bindFields rest

/-- The class data a completed decoration would carry and the transformer
methods (`from_dict`, `from_ydb_row`) close over: the `_ydb_fields`
mapping and the class-level defaults of the finalized dataclass.  The
source never constructs one: see `wrap`. -/
structure DecoratedClass where
  ydb_fields : List YDBFieldInfo
  classDefaults : List (String × Value)
  deriving DecidableEq, Repr

/-- The `TypeError` raised by `dataclasses.fields` when called on a class
that is not a dataclass. -/
def fieldsCrashMsg : String :=
  "TypeError: fields() should be called with a dataclass type or instance"

/-- `ydb_dataclass.wrap` from `decorator.py`, at its actual runtime
behavior: after the field-collection loop, line 113 executes `for name,
field in fields(cls)`.  `dataclasses.fields` is called before
`dataclass(cls)` (line 124) and raises `TypeError` for a non-dataclass
(even on a class that already were a dataclass, a `Field` object does not
unpack into a `name, field` pair), so decorating any shape raises here:
no class is ever decorated, no defaults are ever captured, and none of
the generated methods is ever attached. -/
def wrap (shape : List (String × PyAnn)) : Except String DecoratedClass :=
  match bindFields shape with
  | .error e => .error e
  | .ok _ => .error fieldsCrashMsg

/-- A raw column value from a store row, tagged by the populated variant
the `from_ydb_row` attribute chain would detect: Python `None`, an
explicit null marker (`is_null()` true or a `ydb.Null` instance), one of
the typed accessors in the source's fixed priority order, or an
unrecognized object passed through unconverted. -/
inductive RawValue where
  | pyNone
  | nullMarker
  | intValue (i : Int)
  | uintValue (n : Nat)
  | utf8Value (s : String)
  | bytesValue (s : String)
  | doubleValue (tag : String)
  | boolValue (b : Bool)
  | uint64Value (n : Nat)
  | int64Value (i : Int)
  | microseconds (i : Int)
  | textValue (s : String)
  | passThrough (tag : String)
  deriving DecidableEq, Repr

/-- The value-conversion chain of `from_ydb_row` (`decorator.py` lines
169-196): nulls map to native absence, each populated variant to its
native value, anything else passes through unconverted. -/
def convertRaw : RawValue → Value
  | .pyNone => .vNone
  | .nullMarker => .vNone
  | .intValue i => .vInt i
  | .uintValue n => .vInt n
  | .utf8Value s => .vStr s
  | .bytesValue s => .vStr s
  | .doubleValue t => .vOther t
  | .boolValue b => .vBool b
  | .uint64Value n => .vInt n
  | .int64Value i => .vInt i
  | .microseconds i => .vInt i
  | .textValue s => .vStr s
  | .passThrough t => .vOther t

/-- The finalized dataclass constructor `cls(**kwargs)`: each field takes
its keyword argument when supplied, else its class-level default, and
construction raises `TypeError` when a field has neither. -/
def constructRecord (flds : List YDBFieldInfo) (classDefaults : List (String × Value))
    (kwargs : List (String × Value)) : Except String Record :=
  match flds with
  | [] => .ok []
  | f :: rest =>
    match (lookupStr f.name kwargs).or (lookupStr f.name classDefaults) with
    | some v =>
      match constructRecord rest classDefaults kwargs with
      | .ok r => .ok ((f.name, v) :: r)
      | .error e => .error e
    | none => .error ("TypeError: missing required argument: " ++ f.name)

/-- The field-retrieval loop of `from_ydb_row`: for each bound field, look
the name up on the row (a missing name is skipped with `continue`) and
convert the raw value; the loop itself never raises. -/
def rowKwargs : List YDBFieldInfo → List (String × RawValue) → List (String × Value)
  | [], _ => []
  | f :: rest, row =>
    match lookupStr f.name row with
    | some raw => (f.name, convertRaw raw) :: rowKwargs rest row
    | none => rowKwargs rest row

/-- `from_ydb_row` from `decorator.py` (lines 151-198): collect the row's
values for the bound fields (skipping absent ones), then construct
`cls(**kwargs)`.  In the source this closure is created inside `wrap` and
is unreachable, because `wrap` raises before attaching it (see `wrap`). -/
def from_ydb_row (dc : DecoratedClass) (row : List (String × RawValue)) :
    Except String Record :=
  constructRecord dc.ydb_fields dc.classDefaults (rowKwargs dc.ydb_fields row)

/-- The kwargs-collection loop of `from_dict` (`decorator.py` lines
204-211): a supplied value wins, else the field's `YDBFieldInfo.default`
when it is not the `...` sentinel, else `ValueError` is raised. -/
def dictKwargs (flds : List YDBFieldInfo) (data : List (String × Value)) :
    Except String (List (String × Value)) :=
  match flds with
  | [] => .ok []
  | f :: rest =>
    match lookupStr f.name data with
    | some v =>
      match dictKwargs rest data with
      | .ok ks => .ok ((f.name, v) :: ks)
      | .error e => .error e
    | none =>
      match f.default with
      | some d =>
        match dictKwargs rest data with
        | .ok ks => .ok ((f.name, d) :: ks)
        | .error e => .error e
      | none => .error ("ValueError: missing required field: " ++ f.name)

/-- `from_dict` from `decorator.py` (lines 200-212): build the kwargs from
the supplied mapping and the fields' captured defaults, then construct
`cls(**kwargs)`.  In the source this closure is created inside `wrap` and
is unreachable, because `wrap` raises before attaching it (see `wrap`). -/
def from_dict (dc : DecoratedClass) (data : List (String × Value)) :
    Except String Record :=
  match dictKwargs dc.ydb_fields data with
  | .error e => .error e
  | .ok kwargs => constructRecord dc.ydb_fields dc.classDefaults kwargs

/-! ## Helper lemmas -/

@[simp]
theorem strAppendAssoc (a b c : String) : (a ++ b) ++ c = a ++ (b ++ c) :=
  String.ext (by simp [String.data_append])

@[simp]
theorem strAppendEmpty (s : String) : s ++ "" = s :=
  String.ext (by simp [String.data_append])

theorem foldl_push_eq_map {α β : Type} (g : α → β) :
    ∀ (l : List α) (init : List β),
      l.foldl (fun acc x => acc ++ [g x]) init = init ++ l.map g
  | [], _ => by simp
  | x :: xs, init => by
    simp only [List.foldl_cons, List.map_cons, foldl_push_eq_map g xs]
    simp

/-! ## Claim C7 — predicate-clause generation -/

/-- The predicate-clause translation as the specification words it: an
absent-marker value gives `"<field> IS NULL"`, a sequence value of length
`n` gives `"<field> IN ($<field>_0, ..., $<field>_{n-1})"` with one
indexed parameter per element, and any other value gives
`"<field> = $<field>"`. -/
def specPredicateClause (field : String) (v : WhereVal) : String :=
  match v with
  | .null => field ++ " IS NULL"
  | .seq elems =>
    field ++ " IN (" ++
      String.intercalate ", "
        ((List.range elems.length).map (fun i => "$" ++ field ++ "_" ++ toString i)) ++ ")"
  | .scalar _ => field ++ " = $" ++ field

/-- C7 (confirmed): `generate_where_clause` maps a `None` value to
`"<field> IS NULL"`, a sequence value of length `n` to an `IN` clause with
one indexed parameter per element, and any other value to
`"<field> = $<field>"`, joining the clauses with `" AND "` in the
mapping's input order; the conjuncts also record the specification's three
concrete examples and an in-order multi-condition case. -/
theorem where_clause_generation :
    (∀ conditions : List (String × WhereVal),
      generate_where_clause conditions =
        String.intercalate " AND "
          (conditions.map (fun fv => specPredicateClause fv.1 fv.2))) ∧
    generate_where_clause [("a", .null)] = "a IS NULL" ∧
    generate_where_clause [("a", .seq [.vInt 1, .vInt 2])] = "a IN ($a_0, $a_1)" ∧
    generate_where_clause [("a", .scalar (.vInt 5))] = "a = $a" ∧
    generate_where_clause [("a", .scalar (.vInt 5)), ("b", .null)] = "a = $a AND b IS NULL" := by
  refine ⟨fun conditions => ?_, by decide, by decide, by decide, by decide⟩
  unfold generate_where_clause
  rw [foldl_push_eq_map (fun fv : String × WhereVal => whereClauseFor fv.1 fv.2) conditions []]
  simp only [List.nil_append]
  exact congrArg (String.intercalate " AND ")
    (List.map_congr_left (fun fv _ => by cases fv.2 <;> rfl))

/-! ## Claim C9 — delete with empty predicate -/

/-- C9 (confirmed): `delete_query` with an empty predicate map returns an
unconditional `DELETE` statement with no `WHERE` clause (and, being a
total function, raises nothing), while any non-empty predicate map yields
a `WHERE` clause produced by `generate_where_clause`. -/
theorem delete_query_where_handling (table_name : String)
    (where_ : List (String × WhereVal)) :
    (where_ = [] → delete_query table_name where_ = "DELETE FROM `" ++ table_name ++ "`") ∧
    (where_ ≠ [] → delete_query table_name where_ =
      "DELETE FROM `" ++ table_name ++ "`" ++ " WHERE " ++ generate_where_clause where_) := by
  constructor
  · intro h
    subst h
    rfl
  · intro h
    cases where_ with
    | nil => exact absurd rfl h
    | cons c cs => simp [delete_query]

/-- Witness for C9 at concrete inputs: the empty predicate map degenerates
to an unconditional delete, a singleton predicate map produces the
generated `WHERE` clause. -/
theorem delete_query_where_handling_witness :
    delete_query "t" [] = "DELETE FROM `t`" ∧
    delete_query "t" [("a", .scalar (.vInt 1))] = "DELETE FROM `t` WHERE a = $a" := by
  constructor
  · exact (delete_query_where_handling "t" []).1 rfl
  · exact ((delete_query_where_handling "t" [("a", .scalar (.vInt 1))]).2 (by simp)).trans
      (by decide)

/-! ## Claim C10 — insert with "UPDATE" equals upsert -/

/-- C10 (confirmed): for every table name and field-binding set,
`insert_query` with `on_conflict = "UPDATE"` returns exactly the same
statement text as `upsert_query`. -/
theorem insert_update_eq_upsert (table_name : String)
    (ydb_fields : List YDBFieldInfo) :
    insert_query table_name ydb_fields (some "UPDATE") =
      upsert_query table_name ydb_fields := by
  simp [insert_query, upsert_query]

/-! ## Claim C5 — optional-of-optional -/

/-- C5 counterexample: wrapping an already-optional type is neither
rejected (`Optional.__init__` in `types.py` performs no check and the
construction is total) nor flattened: the resulting store-type name is the
nested `Optional<Optional<Int64>>`, not `Optional<Int64>`. -/
theorem optional_of_optional_not_flattened :
    (YDB.optional (YDB.optional (.base .int64))).ydbTypeName = "Optional<Optional<Int64>>" ∧
    (YDB.optional (YDB.optional (.base .int64))).ydbTypeName ≠ "Optional<Int64>" := by
  decide

/-- C5 (amended): the optional wrapper nests rather than flattening or
rejecting: wrapping any store type prefixes `Optional<...>` to its store
name, so wrapping an already-optional type produces the doubly wrapped
`Optional<Optional<...>>` name; the native representation type delegates
to the inner type unchanged. -/
theorem optional_wrapper_nests (t : StoreType) :
    (YDB.optional t).ydbTypeName = "Optional<" ++ t.ydbTypeName ++ ">" ∧
    (YDB.optional (YDB.optional t)).ydbTypeName =
      "Optional<Optional<" ++ t.ydbTypeName ++ ">>" ∧
    (YDB.optional t).pyTy = t.pyTy := by
  refine ⟨rfl, ?_, rfl⟩
  have h1 : ("Optional<Optional<" : String).data = "Optional<".data ++ "Optional<".data := by
    decide
  have h2 : (">>" : String).data = ">".data ++ ">".data := by decide
  apply String.ext
  simp [YDB.optional, StoreType.ydbTypeName, String.data_append, h1, h2]

/-! ## Claim C1 — binding a shape with an unsupported attribute type -/

/-- C1 (code-bug evidence): the registry scan recognizes no declared type
at all, so the field-collection loop binds nothing and never reaches the
raising `_extract_ydb_type` for any shape - the spec's
`UnsupportedTypeError` is unreachable from binding; instead, decorating
any shape (in particular one with an unsupported attribute type such as
`{x: MyClass}`) raises the unrelated, unconditional `TypeError` from
`dataclasses.fields` at the default-capture loop. -/
theorem binder_crash_and_dead_scan :
    (∀ t : PyAnn, is_ydb_type t = false) ∧
    (∀ shape : List (String × PyAnn), bindFields shape = Except.ok []) ∧
    (∀ shape : List (String × PyAnn), wrap shape = Except.error fieldsCrashMsg) ∧
    wrap [("x", PyAnn.otherTy "MyClass")] = Except.error fieldsCrashMsg := by
  have hbind : ∀ shape : List (String × PyAnn), bindFields shape = Except.ok [] := by
    intro shape
    induction shape with
    | nil => rfl
    | cons p rest ih => simp [bindFields, is_ydb_type, ih]
  refine ⟨fun _ => rfl, hbind, fun shape => ?_, rfl⟩
  rw [wrap, hbind shape]

/-! ## Claim C6 — update SET-field selection -/

/-- The SET-field selection as amended: a given, non-empty `update_fields`
list is restricted to the names also present in the binding set (in the
given list's order); an omitted or empty list selects all binding-set
field names. -/
def specSetFields (ydb_fields : List YDBFieldInfo)
    (update_fields : Option (List String)) : List String :=
  match update_fields with
  | some (u :: us) => (u :: us).filter (fun f => (ydb_fields.map (·.name)).contains f)
  | _ => ydb_fields.map (·.name)

/-- C6 counterexample: with `update_fields` given as the empty list, the
claim's restriction of the SET clause to `updateFields ∩ field names = ∅`
would leave no assignments, but the source's truthiness test treats the
empty list like an omitted argument and emits assignments for all
binding-set fields. -/
theorem update_query_empty_update_fields :
    update_query "t" [⟨"a", .base .int64, none⟩, ⟨"b", .base .int64, none⟩] [] (some []) =
      "UPDATE `t` SET a = $a, b = $b" ∧
    update_query "t" [⟨"a", .base .int64, none⟩, ⟨"b", .base .int64, none⟩] [] (some []) ≠
      "UPDATE `t` SET " := by
  decide

/-- C6 (amended): the SET clause is restricted to `update_fields`
intersected with the binding-set field names when `update_fields` is given
and non-empty, and covers all binding-set fields when it is omitted or
empty; each SET assignment binds a parameter named after the field
(`field = $field`), and a non-empty `where` mapping appends its generated
clause. -/
theorem update_query_set_fields (table_name : String) (ydb_fields : List YDBFieldInfo)
    (where_ : List (String × WhereVal)) (update_fields : Option (List String)) :
    update_query table_name ydb_fields where_ update_fields =
      "UPDATE `" ++ table_name ++ "` SET " ++
        String.intercalate ", "
          ((specSetFields ydb_fields update_fields).map (fun f => f ++ " = $" ++ f)) ++
        (if where_.isEmpty then "" else " WHERE " ++ generate_where_clause where_) := by
  unfold update_query specSetFields
  match update_fields with
  | none => cases where_ <;> simp [List.isEmpty]
  | some [] => cases where_ <;> simp [List.isEmpty]
  | some (u :: us) => cases where_ <;> simp [List.isEmpty]

/-! ## Claim C8 — select clause order and precedence -/

/-- The column-list choice of `select` as the specification words it:
an explicit column list takes precedence over the binding-set-derived
list, which takes precedence over the wildcard. -/
def specSelectColumns (columns : List String) (ydb_fields : List YDBFieldInfo) : String :=
  match columns with
  | _ :: _ => String.intercalate ", " columns
  | [] =>
    match ydb_fields with
    | _ :: _ => String.intercalate ", " (ydb_fields.map (·.name))
    | [] => "*"

/-- The select statement assembled in the specification's fixed clause
order: column list, table, `WHERE` only when the predicate is non-empty,
`ORDER BY` only when given, then `LIMIT` followed by `OFFSET`, with
`OFFSET` emitted only when `LIMIT` is also present. -/
def select_query_spec (table_name : String) (ydb_fields : List YDBFieldInfo)
    (where_ : List (String × WhereVal)) (order_by : List String)
    (limit offset : Option Int) (columns : List String) : String :=
  "SELECT " ++ specSelectColumns columns ydb_fields ++ " FROM `" ++ table_name ++ "`" ++
    (if where_.isEmpty then "" else " WHERE " ++ generate_where_clause where_) ++
    (if order_by.isEmpty then "" else " ORDER BY " ++ String.intercalate ", " order_by) ++
    (match limit, offset with
     | none, _ => ""
     | some l, none => " LIMIT " ++ toString l
     | some l, some o => " LIMIT " ++ toString l ++ " OFFSET " ++ toString o)

/-- C8 (confirmed): `select_query` is exactly the statement assembled in
the fixed order: column list (explicit columns over binding-set-derived
list over wildcard), table, `WHERE` only for a non-empty predicate,
`ORDER BY` only when given, then `LIMIT` followed by `OFFSET`, the latter
emitted only when `LIMIT` is present. -/
theorem select_query_clause_order (table_name : String) (ydb_fields : List YDBFieldInfo)
    (where_ : List (String × WhereVal)) (order_by : List String)
    (limit offset : Option Int) (columns : List String) :
    select_query table_name ydb_fields where_ order_by limit offset columns =
      select_query_spec table_name ydb_fields where_ order_by limit offset columns := by
  unfold select_query select_query_spec specSelectColumns
  cases columns <;> cases ydb_fields <;> cases where_ <;> cases order_by <;>
    cases limit <;> cases offset <;>
      (apply String.ext; simp [String.data_append, List.isEmpty])

/-! ## Claim C2 — from_dict and declared defaults -/

/-- C2 (code-bug evidence): for the claim's shape `{x: int64, y: int64 =
5}`, decoration itself raises the unconditional `TypeError` from
`dataclasses.fields` - before `from_dict` is ever attached to any class -
and the field-collection loop would in any case have bound no fields (the
registry scan recognizes nothing), so the claimed dict-construction
behavior is unreachable in the source. -/
theorem from_dict_never_reachable :
    wrap [("x", PyAnn.ydbBase .int64), ("y", PyAnn.ydbBase .int64)] =
      Except.error fieldsCrashMsg ∧
    bindFields [("x", PyAnn.ydbBase .int64), ("y", PyAnn.ydbBase .int64)] =
      Except.ok [] :=
  ⟨rfl, rfl⟩

/-! ## Claim C3 — from_ydb_row and missing fields -/

/-- C3 (code-bug evidence): for the claim's shape with the single
optional-typed field `x: Optional[YDB.int64]`, decoration raises the
unconditional `TypeError` from `dataclasses.fields` - before
`from_ydb_row` is ever attached to any class - and the registry scan does
not even recognize the optional-of-base annotation, so no bound shape
exists and the claimed lenient row-read behavior is unreachable in the
source. -/
theorem from_ydb_row_never_reachable :
    wrap [("x", PyAnn.optionalOf (.ydbBase .int64))] = Except.error fieldsCrashMsg ∧
    is_ydb_type (PyAnn.optionalOf (.ydbBase .int64)) = false ∧
    bindFields [("x", PyAnn.optionalOf (.ydbBase .int64))] = Except.ok [] :=
  ⟨rfl, rfl, rfl⟩

/-! ## Claim C4 — insert conflict policies -/

/-- Whether `pat` occurs as a contiguous run inside `s`. -/
def occursIn (pat : List Char) : List Char → Bool
  | [] => pat.isPrefixOf []
  | c :: rest => pat.isPrefixOf (c :: rest) || occursIn pat rest

theorem pyReplaceAux_no_occurrence {pat : List Char} (rep : List Char) :
    ∀ s : List Char, occursIn pat s = false →
      ∀ fuel, pyReplaceAux pat rep fuel s = s := by
  intro s
  induction s with
  | nil => intro _ fuel; cases fuel <;> rfl
  | cons c rest ih =>
    intro h fuel
    rw [occursIn, Bool.or_eq_false_iff] at h
    cases fuel with
    | zero => rfl
    | succ fuel => simp [pyReplaceAux, h.1, ih h.2 fuel]

theorem pyReplaceAux_head {pat tail : List Char} (rep : List Char)
    (hne : pat ≠ []) (hocc : occursIn pat tail = false) :
    ∀ fuel, 1 ≤ fuel → pyReplaceAux pat rep fuel (pat ++ tail) = rep ++ tail := by
  intro fuel hf
  obtain ⟨p, ps, rfl⟩ : ∃ p ps, pat = p :: ps := by
    cases pat with
    | nil => exact absurd rfl hne
    | cons p ps => exact ⟨p, ps, rfl⟩
  cases fuel with
  | zero => exact absurd hf (by decide)
  | succ fuel =>
    have hpre : (p :: ps).isPrefixOf (p :: (ps ++ tail)) = true := by
      rw [← List.cons_append]
      exact List.isPrefixOf_iff_prefix.mpr (List.prefix_append _ _)
    have hdrop : (p :: (ps ++ tail)).drop (p :: ps).length = tail := by
      rw [← List.cons_append]
      exact List.drop_left _ _
    show pyReplaceAux (p :: ps) rep (fuel + 1) (p :: (ps ++ tail)) = rep ++ tail
    simp only [pyReplaceAux]
    rw [if_pos ⟨rfl, hpre⟩, hdrop, pyReplaceAux_no_occurrence rep tail hocc fuel]

/-- The tail of every insert statement after its leading verb: table,
column list and `$`-prefixed placeholders in binding order. -/
def insertTail (table_name : String) (ydb_fields : List YDBFieldInfo) : String :=
  " INTO `" ++ table_name ++ "` (" ++
    String.intercalate ", " (ydb_fields.map (·.name)) ++ ") VALUES (" ++
    String.intercalate ", " ((ydb_fields.map (·.name)).map (fun col => "$" ++ col)) ++ ")"

theorem pyReplace_head (tailStr : String)
    (hocc : occursIn "INSERT".data tailStr.data = false) :
    pyReplace ("INSERT" ++ tailStr) "INSERT" "REPLACE" = "REPLACE" ++ tailStr := by
  unfold pyReplace
  apply String.ext
  show pyReplaceAux "INSERT".data "REPLACE".data ("INSERT" ++ tailStr).data.length
    ("INSERT" ++ tailStr).data = ("REPLACE" ++ tailStr).data
  rw [String.data_append, String.data_append]
  have h6 : ("INSERT" : String).data.length = 6 := by decide
  rw [pyReplaceAux_head "REPLACE".data (by decide) hocc _ (by simp [List.length_append, h6])]

/-- C4 counterexample: with a binding-set field named `INSERT`, the
`"REPLACE"` conflict policy - implemented as a textual
`query.replace("INSERT", "REPLACE")` over the whole statement - rewrites
the column list and placeholder too, so the statement does not keep the
column list the claim requires. -/
theorem insert_query_replace_mangles_columns :
    insert_query "t" [⟨"INSERT", .base .int64, none⟩] (some "REPLACE") =
      "REPLACE INTO `t` (REPLACE) VALUES ($REPLACE)" ∧
    insert_query "t" [⟨"INSERT", .base .int64, none⟩] (some "REPLACE") ≠
      "REPLACE INTO `t` (INSERT) VALUES ($INSERT)" := by
  decide

/-- C4 (amended): `insert_query` with `"UPDATE"` always produces the
upsert-semantics verb and with `None` or any other policy value (any
value other than `"REPLACE"` and `"UPDATE"`) a plain `INSERT`, keeping
the column list and `$`-prefixed placeholders in binding order; with
`"REPLACE"` the verb is swapped by textual replacement of every
occurrence of `"INSERT"`, which yields the replace-semantics verb with
the column list and placeholders kept whenever the substring `"INSERT"`
does not occur in the rest of the statement (in particular when neither
the table name nor any field name contains it). -/
theorem insert_query_conflict_policy (table_name : String)
    (ydb_fields : List YDBFieldInfo) :
    (occursIn "INSERT".data (insertTail table_name ydb_fields).data = false →
      insert_query table_name ydb_fields (some "REPLACE") =
        "REPLACE" ++ insertTail table_name ydb_fields) ∧
    insert_query table_name ydb_fields (some "UPDATE") =
      "UPSERT" ++ insertTail table_name ydb_fields ∧
    (∀ on_conflict : Option String, on_conflict ≠ some "REPLACE" →
      on_conflict ≠ some "UPDATE" →
      insert_query table_name ydb_fields on_conflict =
        "INSERT" ++ insertTail table_name ydb_fields) := by
  have hqRaw : ("INSERT INTO `" ++ table_name ++ "` (" ++
      String.intercalate ", " (ydb_fields.map (·.name)) ++ ") VALUES (" ++
      String.intercalate ", " ((ydb_fields.map (·.name)).map (fun col => "$" ++ col)) ++ ")") =
      "INSERT" ++ insertTail table_name ydb_fields := by
    apply String.ext
    have hsplit : ("INSERT INTO `" : String).data = "INSERT".data ++ " INTO `".data := by
      decide
    simp [insertTail, String.data_append, hsplit]
  refine ⟨fun hocc => ?_, ?_, ?_⟩
  · simp only [insert_query]
    rw [if_pos trivial, hqRaw]
    exact pyReplace_head _ hocc
  · simp only [insert_query]
    rw [if_pos trivial]
    apply String.ext
    have hsplit : ("UPSERT INTO `" : String).data = "UPSERT".data ++ " INTO `".data := by
      decide
    simp [insertTail, String.data_append, hsplit]
  · intro on_conflict h1 h2
    simp only [insert_query]
    rw [if_neg h1, if_neg h2]
    exact hqRaw

/-- Witness for C4 (amended) at a concrete input with a single field `a`:
the three conflict-policy branches, the last one both at `None` and at the
unrecognized policy `"NOTHING"`, with the no-"INSERT"-in-tail and
policy-inequality hypotheses discharged by evaluation. -/
theorem insert_query_conflict_policy_witness :
    insert_query "t" [⟨"a", .base .int64, none⟩] (some "REPLACE") =
      "REPLACE INTO `t` (a) VALUES ($a)" ∧
    insert_query "t" [⟨"a", .base .int64, none⟩] (some "UPDATE") =
      "UPSERT INTO `t` (a) VALUES ($a)" ∧
    insert_query "t" [⟨"a", .base .int64, none⟩] none =
      "INSERT INTO `t` (a) VALUES ($a)" ∧
    insert_query "t" [⟨"a", .base .int64, none⟩] (some "NOTHING") =
      "INSERT INTO `t` (a) VALUES ($a)" := by
  obtain ⟨h1, h2, h3⟩ := insert_query_conflict_policy "t" [⟨"a", .base .int64, none⟩]
  exact ⟨(h1 (by decide)).trans (by decide), h2.trans (by decide),
    (h3 none (by decide) (by decide)).trans (by decide),
    (h3 (some "NOTHING") (by decide) (by decide)).trans (by decide)⟩

end YdbDataclass
